import Mathlib

/-!
Verification development for `bdsync-manager.py`, a single-file Python program
that orchestrates differential block-device backups.  The program is embedded
shallowly: pure helpers become Lean functions, and the stateful task pipeline
becomes a writer-style computation that records every external side effect
(subprocess invocation, temp-file creation/deletion) as an `Event` and models
Python exceptions with `Except`.  External tools (bdsync, lvs, lvcreate,
lvremove, ssh, mktemp, stat, rm, the filesystem) are abstracted by an `Oracle`
that decides the outcome of each external call; the embedding itself mirrors
the Python control flow line by line, including its `try`/`finally` and
`try`/`except` semantics.
-/

namespace BdsyncManager

/-- Python exception values that can arise in the program.  `keyError` is what
`configparser.SectionProxy.__getitem__` raises for a missing option;
`noOptionError` is `configparser.NoOptionError` (the class named in
`load_settings`'s `except` clause); `taskSettingsError` / `taskProcessingError`
are the script's own classes; `processError` stands for
`plumbum.ProcessExecutionError` raised by a failing subprocess. -/
inductive PyError where
  | keyError (key : String)
  | noOptionError (key : String)
  | taskSettingsError (msg : String)
  | taskProcessingError (msg : String)
  | processError (what : String)
  | typeError (msg : String)
  | valueError (msg : String)
  | keyboardInterrupt
deriving Repr, DecidableEq

/-- The sink of the bdsync create-patch chain (`chain = patch_source | output_command`
or `chain = patch_source > local_patch_file`). -/
inductive Sink where
  | pipeTo (argv : List String)
  | redirect (path : String)
deriving Repr, DecidableEq

/-- Observable external side effects of the program: each constructor is one
call site that starts a subprocess or creates/deletes a staging file. -/
inductive Event where
  | lvs (source : String)
  | lvcreate (name size source : String)
  | lvremove (arg : String)
  | remoteMktemp (argv : List String)
  | localTempfile (dir : Option String)
  | chainRun (createArgv : List String) (sink : Sink)
  | remoteStat (argv : List String)
  | localGetsize (path : String)
  | applyCall (argv : List String) (stdinFile : Option String)
  | remoteRm (argv : List String)
  | localUnlink (path : String)
  | taskStart (name : String)
deriving Repr, DecidableEq

deriving instance DecidableEq for Except

/-- A computation that performs external effects: it yields the ordered list of
external events it performed together with either a value or the Python
exception that escaped it. -/
structure Tr (α : Type) where
  trace : List Event
  result : Except PyError α
deriving Repr, DecidableEq

def trBind {α β : Type} (x : Tr α) (f : α → Tr β) : Tr β :=
  match x.result with
  | .ok a => ⟨x.trace ++ (f a).trace, (f a).result⟩
  | .error e => ⟨x.trace, .error e⟩

instance : Monad Tr where
  pure a := ⟨[], .ok a⟩
  bind := trBind

/-- Raise a Python exception. -/
def pyRaise {α : Type} (e : PyError) : Tr α := ⟨[], .error e⟩

/-- Perform one external call: the event is recorded, the oracle-provided
outcome becomes the call's result. -/
def liftE {α : Type} (ev : Event) (r : Except PyError α) : Tr α := ⟨[ev], r⟩

/-- Lift a pure `Except` computation (no external effect). -/
def liftX {α : Type} (r : Except PyError α) : Tr α := ⟨[], r⟩

/-- Python `try body finally: fin` semantics: `fin` always runs; if `fin`
itself raises, its exception replaces whatever `body` produced. -/
def tryFinally {α : Type} (body : Tr α) (fin : Tr PUnit) : Tr α :=
  match fin.result with
  | .error e => ⟨body.trace ++ fin.trace, .error e⟩
  | .ok _ => ⟨body.trace ++ fin.trace, body.result⟩

/-- Python `try body except E: handler` where `p` is the class test of the
`except` clause: exceptions not matched by `p` propagate unchanged. -/
def tryCatchWhen {α : Type} (body : Tr α) (p : PyError → Bool)
    (handler : PyError → Tr α) : Tr α :=
  match body.result with
  | .error e =>
      if p e then ⟨body.trace ++ (handler e).trace, (handler e).result⟩
      else ⟨body.trace, .error e⟩
  | .ok a => ⟨body.trace, .ok a⟩

/-- The raw key/value view of one task's section of the config file, after
`configparser` interpolation: `none` means the key is absent from the section
(and from `[DEFAULT]`). -/
structure RawConfig where
  local_bdsync_bin : Option String
  remote_bdsync_bin : Option String
  bdsync_args : Option String
  source_path : Option String
  target_path : Option String
  disabled : Option String
  connection_command : Option String
  target_patch_dir : Option String
  lvm_snapshot_enabled : Option String
  lvm_snapshot_size : Option String
  lvm_snapshot_name : Option String
deriving Repr, DecidableEq

/-- The `settings["lvm"]` sub-dict as built by `load_settings`. -/
structure LvmCfg where
  snapshot_size : String
  snapshot_name : String
deriving Repr, DecidableEq

/-- The `settings` dict produced by `load_settings`. -/
structure Settings where
  local_bdsync_bin : String
  remote_bdsync_bin : String
  bdsync_args : String
  source_path : String
  target_path : String
  disabled : Bool
  connection_command : Option String
  target_patch_dir : Option String
  lvm : Option LvmCfg
deriving Repr, DecidableEq

/-- `str.lower()` (ASCII part, which is all `getboolean` compares against). -/
def pyLower (s : String) : String := ⟨s.data.map Char.toLower⟩

/-- `configparser.BOOLEAN_STATES` lookup used by `getboolean`. -/
def parseBool (s : String) : Option Bool :=
  let t := pyLower s
  if t = "1" ∨ t = "yes" ∨ t = "true" ∨ t = "on" then some true
  else if t = "0" ∨ t = "no" ∨ t = "false" ∨ t = "off" then some false
  else none

/-- `config[key]` on a `configparser.SectionProxy`: raises `KeyError(key)` when
the option is missing — not `configparser.NoOptionError`. -/
def cfgGetItem (v : Option String) (key : String) : Except PyError String :=
  match v with
  | some s => .ok s
  | none => .error (.keyError key)

/-- `config.getboolean(key, fallback)`: missing key yields the fallback; a
present key whose value is not a recognized boolean raises `ValueError`. -/
def cfgGetBool (v : Option String) (fallback : Bool) : Except PyError Bool :=
  match v with
  | some s =>
      match parseBool s with
      | some b => .ok b
      | none => .error (.valueError ("Not a boolean: " ++ s))
  | none => .ok fallback

/-- Body of the `try` block of `load_settings` (source lines 48-62), reading
the options in source order. -/
def load_settings_body (config : RawConfig) : Except PyError Settings := do
  let local_bdsync_bin ← cfgGetItem config.local_bdsync_bin "local_bdsync_bin"
  let remote_bdsync_bin ← cfgGetItem config.remote_bdsync_bin "remote_bdsync_bin"
  let bdsync_args := config.bdsync_args.getD ""
  let source_path ← cfgGetItem config.source_path "source_path"
  let target_path ← cfgGetItem config.target_path "target_path"
  let disabled ← cfgGetBool config.disabled false
  let connection_command := config.connection_command
  let target_patch_dir := config.target_patch_dir
  let lvm_snapshot_enabled ← cfgGetBool config.lvm_snapshot_enabled false
  let lvm ←
    if lvm_snapshot_enabled then do
      let snapshot_size ← cfgGetItem config.lvm_snapshot_size "lvm_snapshot_size"
      let snapshot_name := config.lvm_snapshot_name.getD "bdsync-snapshot"
      pure (some { snapshot_size := snapshot_size, snapshot_name := snapshot_name : LvmCfg })
    else
      pure none
  pure { local_bdsync_bin := local_bdsync_bin, remote_bdsync_bin := remote_bdsync_bin,
         bdsync_args := bdsync_args, source_path := source_path, target_path := target_path,
         disabled := disabled, connection_command := connection_command,
         target_patch_dir := target_patch_dir, lvm := lvm }

/-- `load_settings` (source lines 45-65): the `except configparser.NoOptionError`
clause converts a `NoOptionError` into `TaskSettingsError`.  Note that the
mapping-style accesses in the body raise `KeyError`, never `NoOptionError`, so
this handler is unreachable for missing options. -/
def load_settings (config : RawConfig) : Except PyError Settings :=
  match load_settings_body config with
  | .error (.noOptionError k) =>
      .error (.taskSettingsError ("Missing a mandatory task option: " ++ k))
  | r => r

/-! ### Shell quoting (`shlex.quote`) and a POSIX field-splitting model

`shlex.quote(s)` returns `s` unchanged when every character matches the ASCII
class of word characters plus `@ % + = : , . / -`, returns `''` for an empty
(or falsy, e.g. `None`)
value, and otherwise wraps `s` in single quotes after replacing each embedded
single quote by `'"'"'`.  To state that this quoting is correct we also model
how a POSIX shell would split the composed command string into words: field
splitting on space/tab/newline with single-quote, double-quote and backslash
handling (quote removal).  Redirection characters are not given operator
status by this model, so `>` and `<` simply come out as words of their own;
the program's composed strings place them between spaces, so this does not
affect which characters end up in which word. -/

/-- Characters `shlex.quote` considers safe: ASCII word characters and
`@ % + = : , . / -`. -/
def shSafeChar (c : Char) : Bool :=
  c.isAlphanum || c = '_' || c = '@' || c = '%' || c = '+' || c = '=' ||
  c = ':' || c = ',' || c = '.' || c = '/' || c = '-'

/-- The replacement `s.replace("'", "'\"'\"'")` performed by `shlex.quote`. -/
def pyReplaceQuote : List Char → List Char
  | [] => []
  | c :: rest =>
      if c = '\'' then '\'' :: '"' :: '\'' :: '"' :: '\'' :: pyReplaceQuote rest
      else c :: pyReplaceQuote rest

/-- `shlex.quote` on a list of characters. -/
def shQuoteL (s : List Char) : List Char :=
  if s = [] then ['\'', '\'']
  else if s.all shSafeChar then s
  else '\'' :: pyReplaceQuote s ++ ['\'']

/-- `shlex.quote` on a Python string. -/
def shQuoteStr (s : String) : String := ⟨shQuoteL s.data⟩

/-- `shlex.quote` applied to an optional value: `quote(None)` hits the
`if not s` branch and yields `''`, exactly like the empty string. -/
def shQuoteOpt : Option String → String
  | none => "''"
  | some s => shQuoteStr s

/-- Tokenizer mode: outside quotes, inside single quotes, inside double
quotes, and the states after a backslash outside / inside double quotes. -/
inductive SMode where
  | unq | sq | dq | unqEsc | dqEsc
deriving Repr, DecidableEq

/-- Is `c` a default-IFS field separator? -/
def isIFS (c : Char) : Bool := c = ' ' || c = '\t' || c = '\n'

/-- One-pass POSIX word splitter with quote removal.  `cur = none` means no
word has been started; `some t` is the partial current word.  Returns `none`
on an unterminated quote or trailing backslash. -/
def shLexAux (m : SMode) (cur : Option (List Char)) : List Char → Option (List (List Char))
  | [] =>
      match m, cur with
      | .unq, none => some []
      | .unq, some t => some [t]
      | _, _ => none
  | c :: rest =>
      match m with
      | .unq =>
          if isIFS c then
            match cur with
            | none => shLexAux .unq none rest
            | some t => (shLexAux .unq none rest).map (t :: ·)
          else if c = '\'' then shLexAux .sq (some (cur.getD [])) rest
          else if c = '"' then shLexAux .dq (some (cur.getD [])) rest
          else if c = '\\' then shLexAux .unqEsc (some (cur.getD [])) rest
          else shLexAux .unq (some (cur.getD [] ++ [c])) rest
      | .unqEsc =>
          if c = '\n' then shLexAux .unq cur rest
          else shLexAux .unq (some (cur.getD [] ++ [c])) rest
      | .sq =>
          if c = '\'' then shLexAux .unq cur rest
          else shLexAux .sq (some (cur.getD [] ++ [c])) rest
      | .dq =>
          if c = '"' then shLexAux .unq cur rest
          else if c = '\\' then shLexAux .dqEsc cur rest
          else shLexAux .dq (some (cur.getD [] ++ [c])) rest
      | .dqEsc =>
          if c = '$' || c = '`' || c = '"' || c = '\\' then
            shLexAux .dq (some (cur.getD [] ++ [c])) rest
          else shLexAux .dq (some (cur.getD [] ++ ['\\', c])) rest

/-- Split a character list into shell words. -/
def shellSplitL (l : List Char) : Option (List (List Char)) :=
  shLexAux .unq none l

/-- Split a string into shell words. -/
def shellSplit (s : String) : Option (List String) :=
  (shellSplitL s.data).map (·.map (⟨·⟩))

/-- `shlex.split` as used on `connection_command` and `bdsync_args`.  (For the
ill-quoted inputs on which `shlex.split` raises `ValueError` this model
returns `[]`; no claim depends on such inputs.) -/
def shlexSplit (s : String) : List String :=
  ((shellSplitL s.data).getD []).map (⟨·⟩)

/-- `os.path.basename`: the part after the last `/`. -/
def pyBasenameL (l : List Char) : List Char :=
  (l.reverse.takeWhile (· ≠ '/')).reverse

/-- `os.path.basename` on a string. -/
def pyBasename (s : String) : String := ⟨pyBasenameL s.data⟩

/-- `os.path.dirname`: the part before the last `/`, with trailing slashes
stripped unless the result consists only of slashes. -/
def pyDirname (s : String) : String :=
  let l := s.data
  let head := (l.reverse.dropWhile (· ≠ '/')).reverse
  if head = [] then ""
  else if head.all (· = '/') then ⟨head⟩
  else ⟨(head.reverse.dropWhile (· = '/')).reverse⟩

/-- Python `str.strip()` whitespace set (ASCII part). -/
def isPyWs (c : Char) : Bool :=
  c = ' ' || c = '\t' || c = '\n' || c = '\r' || c = '\x0b' || c = '\x0c'

/-- Python `str.strip()`. -/
def pyStrip (s : String) : String :=
  ⟨((s.data.dropWhile isPyWs).reverse.dropWhile isPyWs).reverse⟩

/-- `output.rstrip("\n\r")` from `get_remote_tempfile`. -/
def pyRstripNl (s : String) : String :=
  ⟨(s.data.reverse.dropWhile (fun c => c = '\n' || c = '\r')).reverse⟩

/-- Decimal digits to a natural number. -/
def digitsToNat (l : List Char) : Nat :=
  l.foldl (fun n c => n * 10 + (c.toNat - 48)) 0

/-- Python `int(...)` on subprocess output: surrounding whitespace is
allowed, an optional sign, then decimal digits; anything else raises
`ValueError`. -/
def pyInt (s : String) : Except PyError Int :=
  match (pyStrip s).data with
  | '-' :: rest =>
      if rest ≠ [] ∧ rest.all (·.isDigit) then .ok (-(digitsToNat rest : Int))
      else .error (.valueError ("invalid literal for int: " ++ s))
  | '+' :: rest =>
      if rest ≠ [] ∧ rest.all (·.isDigit) then .ok (digitsToNat rest)
      else .error (.valueError ("invalid literal for int: " ++ s))
  | t =>
      if t ≠ [] ∧ t.all (·.isDigit) then .ok (digitsToNat t)
      else .error (.valueError ("invalid literal for int: " ++ s))

/-! ### The composed remote command strings (each is the single argument
appended after the split connection command and parsed by the remote shell) -/

/-- Source line 114: `"%s %s --server" % (connection_command, shlex.quote(remote_bdsync))`. -/
def remoteServerCommandString (conn remote_bdsync : String) : String :=
  conn ++ " " ++ shQuoteStr remote_bdsync ++ " --server"

/-- Source line 128: `"%s --server" % shlex.quote(remote_bdsync)`. -/
def localServerCommandString (remote_bdsync : String) : String :=
  shQuoteStr remote_bdsync ++ " --server"

/-- Source line 94: `"mktemp --tmpdir=%s %s-XXXX.bdsync" %
(shlex.quote(directory), shlex.quote(os.path.basename(target)))`. -/
def mktempCommandString (directory : Option String) (target : String) : String :=
  "mktemp --tmpdir=" ++ shQuoteOpt directory ++ " " ++
    shQuoteStr (pyBasename target) ++ "-XXXX.bdsync"

/-- Source line 118: `"cat > %s" % shlex.quote(remote_patch_file)`. -/
def catCommandString (f : String) : String := "cat > " ++ shQuoteStr f

/-- Source line 124: `"stat --format %%s %s" % shlex.quote(remote_patch_file)`. -/
def statCommandString (f : String) : String := "stat --format %s " ++ shQuoteStr f

/-- Source line 182: `"rm %s" % shlex.quote(remote_patch_file)`. -/
def rmCommandString (f : String) : String := "rm " ++ shQuoteStr f

/-- Python `" ".join(...)`. -/
def pyJoinSpace : List String → String
  | [] => ""
  | [s] => s
  | s :: rest => s ++ " " ++ pyJoinSpace rest

/-- Source lines 157-163: the quoted-token join for the remote apply command,
`" ".join(quote(t) for t in [remote_bdsync] + split(bdsync_args) + ["--patch"])`
followed by the unquoted redirection `" < " + quote(remote_patch_file)`. -/
def applyCommandString (remote_bdsync bdsync_args f : String) : String :=
  pyJoinSpace (([remote_bdsync] ++ shlexSplit bdsync_args ++ ["--patch"]).map shQuoteStr)
    ++ " < " ++ shQuoteStr f

/-! ### `sizeof_fmt` (source lines 101-107)

The Python loop works on a float that starts as an integer and is only ever
divided by `1024.0`.  Such a division merely decrements the binary exponent,
so for every input whose magnitude binary floating point represents exactly
(in particular all the claim's inputs) the float holds exactly the rational
`num / 1024^k`.  The embedding therefore computes with that exact dyadic
value: `Dy` is an integer numerator over a power of 1024, `fmt31` renders
`"%3.1f"` (one decimal digit, round half to even, right-justified to a
minimum width of 3) and `fmtDot1` renders `"%.1f"`. -/

/-- The exact value of the float inside `sizeof_fmt`: `num / 1024 ^ k`. -/
structure Dy where
  num : Int
  k : Nat
deriving Repr, DecidableEq

/-- The float an `int` converts to at the start of `sizeof_fmt`. -/
def Dy.ofInt (n : Int) : Dy := ⟨n, 0⟩

/-- `num /= 1024.0`. -/
def Dy.div1024 (d : Dy) : Dy := ⟨d.num, d.k + 1⟩

/-- `abs(num) < 1024.0`, i.e. `|num| < 1024 ^ (k + 1)`. -/
def Dy.absLt1024 (d : Dy) : Bool := d.num.natAbs < 1024 ^ (d.k + 1)

/-- Round `N / D` (with `D > 0`) to the nearest integer, ties to even (the
rounding used by C's `%f` formatting on an exactly representable value). -/
def rheFrac (N D : Int) : Int :=
  let n := N.fdiv D
  let r := N - n * D
  if 2 * r < D then n
  else if D < 2 * r then n + 1
  else if n % 2 = 0 then n else n + 1

/-- `"%.1f" % d`. -/
def fmtDot1 (d : Dy) : String :=
  let t := rheFrac (10 * d.num) ((1024 : Int) ^ d.k)
  let sign := if t < 0 then "-" else ""
  let a := t.natAbs
  sign ++ toString (a / 10) ++ "." ++ toString (a % 10)

/-- `"%3.1f" % d` (the width-3 padding can only trigger for outputs shorter
than three characters, which a `d.d` rendering never is). -/
def fmt31 (d : Dy) : String :=
  let s := fmtDot1 d
  if s.length < 3 then ⟨List.replicate (3 - s.length) ' '⟩ ++ s else s

/-- The unit prefixes iterated over by `sizeof_fmt`. -/
def sizeofFmtUnits : List String := ["", "Ki", "Mi", "Gi", "Ti", "Pi", "Ei", "Zi"]

/-- The loop of `sizeof_fmt`. -/
def sizeof_fmt_aux (num : Dy) (suffix : String) : List String → String
  | [] => fmtDot1 num ++ "Yi" ++ suffix
  | unit :: rest =>
      if num.absLt1024 then fmt31 num ++ unit ++ suffix
      else sizeof_fmt_aux num.div1024 suffix rest

/-- `sizeof_fmt(num, suffix)` on an integer byte count (the source's default
`suffix='B'` is passed explicitly by this embedding's callers). -/
def sizeof_fmt (num : Int) (suffix : String) : String :=
  sizeof_fmt_aux (Dy.ofInt num) suffix sizeofFmtUnits

/-! ### The LVM size regex (source line 37) -/

/-- One-letter unit suffixes accepted by `LVM_SIZE_REGEX`. -/
def isLvmUnit (c : Char) : Bool :=
  c = 'b' || c = 'B' || c = 's' || c = 'S' || c = 'k' || c = 'K' ||
  c = 'm' || c = 'M' || c = 'g' || c = 'G' || c = 't' || c = 'T' ||
  c = 'p' || c = 'P' || c = 'e' || c = 'E'

/-- `LVM_SIZE_REGEX.match`: one or more digits followed by an optional
one-letter unit. -/
def lvmSizeMatch (s : String) : Bool :=
  let l := s.data
  (decide (l ≠ []) && l.all (·.isDigit)) ||
  (match l.getLast? with
   | some c => isLvmUnit c && decide (l.dropLast ≠ []) && l.dropLast.all (·.isDigit)
   | none => false)

/-! ### The oracle for external tools and the filesystem -/

/-- Python truthiness of an optional string (`None` and `""` are falsy), as
used by `if connection_command:` and `if not settings["connection_command"]:`. -/
def pyTruthy : Option String → Bool
  | none => false
  | some s => !s.isEmpty

/-- Outcomes of the external world: one field per kind of external call the
program makes.  Each returns the call's result or the Python exception
(`plumbum.ProcessExecutionError`, `OSError`, ...) it raises. -/
structure Oracle where
  isfile : String → Bool
  pathExists : String → Bool
  isdir : String → Bool
  lvs : String → Except PyError String
  lvcreate : (name size source : String) → Except PyError Unit
  lvremove : String → Except PyError Unit
  remoteMktemp : List String → Except PyError String
  localTempfile : Option String → Except PyError String
  chainRun : List String → Sink → Except PyError Unit
  remoteStat : List String → Except PyError String
  localGetsize : String → Except PyError Nat
  applyCall : List String → Option String → Except PyError Unit
  remoteRm : List String → Except PyError Unit
  localUnlink : String → Except PyError Unit

/-! ### `validate_settings` (source lines 68-89) -/

/-- `validate_settings`: checks in source order; returns the Volume Group name
that the source stores into `settings["lvm"]["vg_name"]` (`none` when
snapshotting is off). -/
def validate_settings (o : Oracle) (s : Settings) : Tr (Option String) := do
  if !o.isfile s.local_bdsync_bin then
    pyRaise (.taskSettingsError
      ("The local bdsync binary was not found (" ++ s.local_bdsync_bin ++ ")."))
  if !o.pathExists s.source_path then
    pyRaise (.taskSettingsError
      ("The source device (source_path=" ++ s.source_path ++ ") does not exist"))
  let vg : Option String ←
    match s.lvm with
    | some l => do
        if !lvmSizeMatch l.snapshot_size then
          pyRaise (.taskSettingsError ("Invalid LVM snapshot size (" ++ l.snapshot_size ++ ")"))
        let out ← liftE (Event.lvs s.source_path) (o.lvs s.source_path)
        let vg_name := pyStrip out
        if vg_name.isEmpty then
          pyRaise (.taskSettingsError
            ("Failed to discover the name of the Volume Group of " ++ s.source_path ++ " via lvs"))
        pure (some vg_name)
    | none => pure none
  if !pyTruthy s.connection_command then do
    -- local transfer
    if !o.pathExists (pyDirname s.target_path) then
      pyRaise (.taskSettingsError
        ("The directory of the local target (target_path=" ++ s.target_path ++ ") does not exist"))
    match s.target_patch_dir with
    | none =>
        -- os.path.isdir(None) raises TypeError (os.stat rejects None)
        pyRaise (.typeError "argument should be a str or an os.PathLike object, not NoneType")
    | some d =>
        if !o.isdir d then
          pyRaise (.taskSettingsError
            ("The patch directory of the local target (target_patch_dir=" ++ d ++ ") does not exist"))
  pure vg

/-! ### `get_remote_tempfile` (source lines 92-98) and `run_bdsync` (110-187) -/

/-- `get_remote_tempfile`. -/
def get_remote_tempfile (o : Oracle) (connection_command target : String)
    (directory : Option String) : Tr String := do
  let cmd_args := shlexSplit connection_command ++ [mktempCommandString directory target]
  let output ← liftE (Event.remoteMktemp cmd_args) (o.remoteMktemp cmd_args)
  pure (pyRstripNl output)

/-- `run_bdsync`: create the patch (piped into the staging file), measure its
size, apply it, then delete the staging file.  There is no `try`/`finally` in
this function: every step runs only if all previous steps succeeded. -/
def run_bdsync (o : Oracle) (source target : String)
    (target_patch_dir connection_command : Option String)
    (local_bdsync remote_bdsync bdsync_args : String) : Tr Unit := do
  -- mode-specific setup (lines 112-131): remote server command and staging file
  let setup : String × String ←
    if pyTruthy connection_command then do
      let conn := connection_command.getD ""
      let remote_command := remoteServerCommandString conn remote_bdsync
      let remote_patch_file ← get_remote_tempfile o conn target target_patch_dir
      pure (remote_command, remote_patch_file)
    else do
      let remote_command := localServerCommandString remote_bdsync
      let fname ← liftE (Event.localTempfile target_patch_dir) (o.localTempfile target_patch_dir)
      pure (remote_command, fname)
  let remote_command := setup.1
  let stagingFile := setup.2
  -- create the patch (lines 133-147)
  let create_patch_args :=
    [local_bdsync] ++ shlexSplit bdsync_args ++ [remote_command, source, target]
  let sink :=
    if pyTruthy connection_command then
      Sink.pipeTo (shlexSplit (connection_command.getD "") ++ [catCommandString stagingFile])
    else
      Sink.redirect stagingFile
  liftE (Event.chainRun create_patch_args sink) (o.chainRun create_patch_args sink)
  -- measure the patch size (line 151): int(patch_size_func())
  let size : Int ←
    if pyTruthy connection_command then do
      let argv := shlexSplit (connection_command.getD "") ++ [statCommandString stagingFile]
      let out ← liftE (Event.remoteStat argv) (o.remoteStat argv)
      liftX (pyInt out)
    else do
      let n ← liftE (Event.localGetsize stagingFile) (o.localGetsize stagingFile)
      pure (Int.ofNat n)
  let _sizeReport := sizeof_fmt size "B"
  -- apply the patch (lines 154-175)
  if pyTruthy connection_command then do
    let argv := shlexSplit (connection_command.getD "")
      ++ [applyCommandString remote_bdsync bdsync_args stagingFile]
    liftE (Event.applyCall argv none) (o.applyCall argv none)
  else do
    let argv := [local_bdsync] ++ shlexSplit bdsync_args ++ ["--patch"]
    liftE (Event.applyCall argv (some stagingFile)) (o.applyCall argv (some stagingFile))
  -- remove the staging file (lines 179-187)
  if pyTruthy connection_command then do
    let argv := shlexSplit (connection_command.getD "") ++ [rmCommandString stagingFile]
    liftE (Event.remoteRm argv) (o.remoteRm argv)
  else
    liftE (Event.localUnlink stagingFile) (o.localUnlink stagingFile)

/-! ### Snapshot lifecycle and the task runner (source lines 190-218, 266-274) -/

/-- `prepare_lvm_snapshot` (lines 210-213). -/
def prepare_lvm_snapshot (o : Oracle)
    (source_path vg_name snapshot_name snapshot_size : String) : Tr String := do
  liftE (Event.lvcreate snapshot_name snapshot_size source_path)
    (o.lvcreate snapshot_name snapshot_size source_path)
  pure ("/dev/" ++ vg_name ++ "/" ++ snapshot_name)

/-- `cleanup_lvm_snapshot` (lines 216-218). -/
def cleanup_lvm_snapshot (o : Oracle) (vg_name snapshot_name : String) : Tr PUnit := do
  liftE (Event.lvremove (vg_name ++ "/" ++ snapshot_name))
    (o.lvremove (vg_name ++ "/" ++ snapshot_name))
  pure PUnit.unit

/-- Source lines 196-207 of `process_task`: optional snapshot creation, then
`try: run_bdsync(...) finally: if "lvm" in settings: cleanup_lvm_snapshot(...)`.
`vg` is the Volume Group name returned by `validate_settings`. -/
def snapshotAndRun (o : Oracle) (s : Settings) (vg : String) : Tr Unit := do
  let real_source ←
    match s.lvm with
    | some l => prepare_lvm_snapshot o s.source_path vg l.snapshot_name l.snapshot_size
    | none => pure s.source_path
  tryFinally
    (run_bdsync o real_source s.target_path s.target_patch_dir s.connection_command
      s.local_bdsync_bin s.remote_bdsync_bin s.bdsync_args)
    (match s.lvm with
     | some l => cleanup_lvm_snapshot o vg l.snapshot_name
     | none => pure PUnit.unit)

/-- `process_task` (lines 190-207). -/
def process_task (o : Oracle) (config : RawConfig) : Tr Unit := do
  let s ← liftX (load_settings config)
  if s.disabled then
    pure ()
  else do
    let vg ← validate_settings o s
    snapshotAndRun o s (vg.getD "")

/-- Matches the `except TaskProcessingError` clause of the main loop.  Note
that nothing in the program ever raises `TaskProcessingError`. -/
def isTaskProcessingError : PyError → Bool
  | .taskProcessingError _ => true
  | _ => false

/-- One entry of the main loop's `tasks` list. -/
structure TaskEntry where
  name : String
  config : RawConfig
deriving Repr, DecidableEq

/-- The `for task in tasks:` loop (lines 267-272): per task, set the
task-attributed log formatter (modelled as `Event.taskStart`) and run
`process_task` under `try ... except TaskProcessingError`. -/
def runTaskLoop (o : Oracle) : List TaskEntry → Tr Unit
  | [] => pure ()
  | t :: rest => do
      liftE (Event.taskStart t.name) (.ok ())
      tryCatchWhen (process_task o t.config) isTaskProcessingError (fun _ => pure ())
      runTaskLoop o rest

/-- The whole guarded loop (lines 266-274): the task loop wrapped in
`try ... except KeyboardInterrupt`. -/
def mainRun (o : Oracle) (tasks : List TaskEntry) : Tr Unit :=
  tryCatchWhen (runTaskLoop o tasks) (· = .keyboardInterrupt) (fun _ => pure ())

/-! ### Auxiliary definitions used by the verification -/

/-- Characters the field splitter consumes as ordinary word characters
(neither IFS whitespace nor one of the three quoting characters). -/
def plainChar (c : Char) : Bool :=
  !isIFS c && c ≠ '\'' && c ≠ '"' && c ≠ '\\'

/-- Is the outcome a `TaskSettingsError`? -/
def isSettingsErrorResult {α : Type} : Except PyError α → Bool
  | .error (.taskSettingsError _) => true
  | _ => false

/-! ### Concrete fixtures (environments and configurations) -/

/-- An environment in which every external call succeeds. -/
def oracleAllOk : Oracle where
  isfile := fun _ => true
  pathExists := fun _ => true
  isdir := fun _ => true
  lvs := fun _ => .ok "  vg0\n"
  lvcreate := fun _ _ _ => .ok ()
  lvremove := fun _ => .ok ()
  remoteMktemp := fun _ => .ok "/tmp/root-ab12.bdsync\n"
  localTempfile := fun _ => .ok "/tmp/tmpq1w2"
  chainRun := fun _ _ => .ok ()
  remoteStat := fun _ => .ok "1536\n"
  localGetsize := fun _ => .ok 1536
  applyCall := fun _ _ => .ok ()
  remoteRm := fun _ => .ok ()
  localUnlink := fun _ => .ok ()

/-- Like `oracleAllOk` but the local bdsync binary does not exist, so
`validate_settings` raises `TaskSettingsError`. -/
def oracleNoBinary : Oracle :=
  { oracleAllOk with isfile := fun _ => false }

/-- Like `oracleAllOk` but the bdsync create-patch chain fails
(`plumbum` raises for the failing subprocess). -/
def oracleChainFails : Oracle :=
  { oracleAllOk with chainRun := fun _ _ => .error (.processError "bdsync create failed") }

/-- Like `oracleChainFails` but additionally `lvremove` fails. -/
def oracleTeardownAlsoFails : Oracle :=
  { oracleChainFails with lvremove := fun _ => .error (.processError "lvremove failed") }

/-- Like `oracleAllOk` but deleting the local staging file fails. -/
def oracleUnlinkFails : Oracle :=
  { oracleAllOk with localUnlink := fun _ => .error (.processError "unlink failed") }

/-- Like `oracleAllOk` but the remote apply command fails. -/
def oracleApplyFails : Oracle :=
  { oracleAllOk with applyCall := fun _ _ => .error (.processError "bdsync patch failed") }

/-- A complete local-mode task configuration. -/
def cfgLocal : RawConfig where
  local_bdsync_bin := some "/usr/bin/bdsync"
  remote_bdsync_bin := some "/usr/bin/bdsync"
  bdsync_args := none
  source_path := some "/dev/sda1"
  target_path := some "backup/root"
  disabled := none
  connection_command := none
  target_patch_dir := some "/tmp"
  lvm_snapshot_enabled := none
  lvm_snapshot_size := none
  lvm_snapshot_name := none

/-- A complete remote-mode task configuration with snapshotting enabled. -/
def cfgRemoteLvm : RawConfig where
  local_bdsync_bin := some "/usr/bin/bdsync"
  remote_bdsync_bin := some "/usr/local/bin/bdsync"
  bdsync_args := some "--hash=sha1"
  source_path := some "/dev/vg0/root"
  target_path := some "backup/my root"
  disabled := none
  connection_command := some "ssh -p 2200 foo@target"
  target_patch_dir := some "/tmp"
  lvm_snapshot_enabled := some "yes"
  lvm_snapshot_size := some "5G"
  lvm_snapshot_name := none

/-- A disabled task configuration that nevertheless lacks the mandatory
`source_path` option. -/
def cfgDisabledMissingSource : RawConfig where
  local_bdsync_bin := some "/usr/bin/bdsync"
  remote_bdsync_bin := some "/usr/bin/bdsync"
  bdsync_args := none
  source_path := none
  target_path := some "backup/root"
  disabled := some "yes"
  connection_command := none
  target_patch_dir := some "/tmp"
  lvm_snapshot_enabled := none
  lvm_snapshot_size := none
  lvm_snapshot_name := none

/-- A complete, disabled task configuration. -/
def cfgDisabled : RawConfig :=
  { cfgLocal with disabled := some "yes" }

/-- A remote-mode task configuration with `target_patch_dir` unset. -/
def cfgRemoteNoPatchDir : RawConfig where
  local_bdsync_bin := some "/usr/bin/bdsync"
  remote_bdsync_bin := some "/usr/local/bin/bdsync"
  bdsync_args := none
  source_path := some "/dev/sda1"
  target_path := some "backup/root"
  disabled := none
  connection_command := some "ssh foo@target"
  target_patch_dir := none
  lvm_snapshot_enabled := none
  lvm_snapshot_size := none
  lvm_snapshot_name := none

/-- The `Settings` value `load_settings` produces for `cfgRemoteLvm`. -/
def settingsRemoteLvm : Settings where
  local_bdsync_bin := "/usr/bin/bdsync"
  remote_bdsync_bin := "/usr/local/bin/bdsync"
  bdsync_args := "--hash=sha1"
  source_path := "/dev/vg0/root"
  target_path := "backup/my root"
  disabled := false
  connection_command := some "ssh -p 2200 foo@target"
  target_patch_dir := some "/tmp"
  lvm := some { snapshot_size := "5G", snapshot_name := "bdsync-snapshot" }

/-- A local-mode `Settings` value with snapshotting enabled. -/
def settingsLocalLvm : Settings where
  local_bdsync_bin := "/usr/bin/bdsync"
  remote_bdsync_bin := "/usr/bin/bdsync"
  bdsync_args := ""
  source_path := "/dev/vg0/root"
  target_path := "backup/root"
  disabled := false
  connection_command := none
  target_patch_dir := some "/tmp"
  lvm := some { snapshot_size := "5G", snapshot_name := "bdsync-snapshot" }

/-- A remote-mode `Settings` value whose `target_patch_dir` is `None`
(the value `load_settings` produces for `cfgRemoteNoPatchDir`). -/
def settingsRemoteNoPatchDir : Settings where
  local_bdsync_bin := "/usr/bin/bdsync"
  remote_bdsync_bin := "/usr/local/bin/bdsync"
  bdsync_args := ""
  source_path := "/dev/sda1"
  target_path := "backup/root"
  disabled := false
  connection_command := some "ssh foo@target"
  target_patch_dir := none
  lvm := none

/-- The `Settings` value `load_settings` produces for `cfgDisabled`. -/
def settingsDisabled : Settings where
  local_bdsync_bin := "/usr/bin/bdsync"
  remote_bdsync_bin := "/usr/bin/bdsync"
  bdsync_args := ""
  source_path := "/dev/sda1"
  target_path := "backup/root"
  disabled := true
  connection_command := none
  target_patch_dir := some "/tmp"
  lvm := none

/-- A task configuration missing both `local_bdsync_bin` and `source_path`. -/
def cfgMissingBin : RawConfig :=
  { cfgLocal with local_bdsync_bin := none, source_path := none }

/-! ## Helper theorems

First the elementary facts about the `Tr` computation type, then the
correctness development for `shlex.quote` against the POSIX field splitter,
then evaluation lemmas for the pipeline under symbolic environments. -/

theorem tr_bind_def {α β : Type} (x : Tr α) (f : α → Tr β) : x >>= f = trBind x f := rfl

theorem mem_trBind_trace {α β : Type} {x : Tr α} {f : α → Tr β} {e : Event} :
    e ∈ (trBind x f).trace ↔ e ∈ x.trace ∨ ∃ a, x.result = .ok a ∧ e ∈ (f a).trace := by
  unfold trBind
  cases hx : x.result <;> simp [hx]

theorem liftE_trace {α : Type} (ev : Event) (r : Except PyError α) : (liftE ev r).trace = [ev] := rfl

theorem liftE_result {α : Type} (ev : Event) (r : Except PyError α) : (liftE ev r).result = r := rfl

theorem liftX_trace {α : Type} (r : Except PyError α) : (liftX r).trace = [] := rfl

theorem tr_pure_trace {α : Type} (a : α) : (pure a : Tr α).trace = [] := rfl

theorem tr_pure_result {α : Type} (a : α) : (pure a : Tr α).result = .ok a := rfl

theorem pyRaise_trace {α : Type} (e : PyError) : (pyRaise e : Tr α).trace = [] := rfl

theorem tryFinally_trace {α : Type} (b : Tr α) (f : Tr PUnit) :
    (tryFinally b f).trace = b.trace ++ f.trace := by
  unfold tryFinally
  cases f.result <;> rfl

/-! ### Correctness of `shlex.quote` against the field splitter -/

theorem stepPlain {c : Char} (h : plainChar c = true) (cur : Option (List Char))
    (rest : List Char) :
    shLexAux .unq cur (c :: rest) = shLexAux .unq (some (cur.getD [] ++ [c])) rest := by
  unfold plainChar at h
  simp only [Bool.and_eq_true, Bool.not_eq_true', decide_eq_true_eq, ne_eq] at h
  obtain ⟨⟨⟨h1, h2⟩, h3⟩, h4⟩ := h
  conv_lhs => unfold shLexAux
  simp only [h1, Bool.false_eq_true, if_false, if_neg h2, if_neg h3, if_neg h4]

theorem stepSpace (t rest' : List Char) :
    shLexAux .unq (some t) (' ' :: rest') = (shLexAux .unq none rest').map (t :: ·) := by
  conv_lhs => unfold shLexAux
  simp [isIFS]

theorem stepSqEnter (cur : Option (List Char)) (rest : List Char) :
    shLexAux .unq cur ('\'' :: rest) = shLexAux .sq (some (cur.getD [])) rest := by
  conv_lhs => unfold shLexAux
  simp [isIFS]

theorem stepDqEnter (cur : Option (List Char)) (rest : List Char) :
    shLexAux .unq cur ('"' :: rest) = shLexAux .dq (some (cur.getD [])) rest := by
  conv_lhs => unfold shLexAux
  simp [isIFS]

theorem stepSqExit (cur : Option (List Char)) (rest : List Char) :
    shLexAux .sq cur ('\'' :: rest) = shLexAux .unq cur rest := by
  conv_lhs => unfold shLexAux
  simp

theorem stepSqChar {c : Char} (h : c ≠ '\'') (cur : Option (List Char)) (rest : List Char) :
    shLexAux .sq cur (c :: rest) = shLexAux .sq (some (cur.getD [] ++ [c])) rest := by
  conv_lhs => unfold shLexAux
  simp [h]

theorem stepDqExit (cur : Option (List Char)) (rest : List Char) :
    shLexAux .dq cur ('"' :: rest) = shLexAux .unq cur rest := by
  conv_lhs => unfold shLexAux
  simp

theorem stepDqChar {c : Char} (h : c ≠ '"') (h' : c ≠ '\\') (cur : Option (List Char))
    (rest : List Char) :
    shLexAux .dq cur (c :: rest) = shLexAux .dq (some (cur.getD [] ++ [c])) rest := by
  conv_lhs => unfold shLexAux
  simp [h, h']

theorem endUnq (t : List Char) : shLexAux .unq (some t) [] = some [t] := rfl

theorem endUnqNone : shLexAux .unq none [] = some [] := rfl

theorem plainRun {cs : List Char} (h : cs.all plainChar = true) (acc rest : List Char) :
    shLexAux .unq (some acc) (cs ++ rest) = shLexAux .unq (some (acc ++ cs)) rest := by
  induction cs generalizing acc with
  | nil => simp
  | cons c cs ih =>
      simp only [List.all_cons, Bool.and_eq_true] at h
      rw [List.cons_append, stepPlain h.1, Option.getD_some, ih h.2]
      simp

theorem sqRun (cs : List Char) (acc rest : List Char) :
    shLexAux .sq (some acc) (pyReplaceQuote cs ++ '\'' :: rest) =
      shLexAux .unq (some (acc ++ cs)) rest := by
  induction cs generalizing acc with
  | nil => simp [pyReplaceQuote, stepSqExit]
  | cons c cs ih =>
      by_cases hc : c = '\''
      · subst hc
        rw [show pyReplaceQuote ('\'' :: cs) = '\'' :: '"' :: '\'' :: '"' :: '\'' :: pyReplaceQuote cs from by
          simp [pyReplaceQuote]]
        simp only [List.cons_append]
        rw [stepSqExit, stepDqEnter, Option.getD_some,
          stepDqChar (by decide) (by decide), Option.getD_some,
          stepDqExit, stepSqEnter, Option.getD_some, ih (acc ++ ['\''])]
        simp
      · rw [show pyReplaceQuote (c :: cs) = c :: pyReplaceQuote cs from by simp [pyReplaceQuote, hc]]
        rw [List.cons_append, stepSqChar hc, Option.getD_some, ih (acc ++ [c])]
        simp

theorem shSafeChar_plain {c : Char} (h : shSafeChar c = true) : plainChar c = true := by
  by_contra h'
  have hp : plainChar c = false := by
    cases hpc : plainChar c
    · rfl
    · exact absurd hpc h'
  unfold plainChar at hp
  simp only [Bool.and_eq_false_iff, Bool.not_eq_false', decide_eq_false_iff_not, ne_eq,
    Decidable.not_not] at hp
  rcases hp with ((hifs | rfl) | rfl) | rfl
  · unfold isIFS at hifs
    simp only [Bool.or_eq_true, decide_eq_true_eq] at hifs
    rcases hifs with (rfl | rfl) | rfl <;> simp [shSafeChar] at h
  · simp [shSafeChar] at h
  · simp [shSafeChar] at h
  · simp [shSafeChar] at h

/-- Consuming `shlex.quote(s)` from unquoted mode appends exactly the
characters of `s` to the current word, whatever characters `s` contains. -/
theorem quoteRun (s : List Char) (cur : Option (List Char)) (rest : List Char) :
    shLexAux .unq cur (shQuoteL s ++ rest) = shLexAux .unq (some (cur.getD [] ++ s)) rest := by
  by_cases hnil : s = []
  · subst hnil
    rw [show shQuoteL [] = ['\'', '\''] from rfl]
    rw [show (['\'', '\''] : List Char) ++ rest = '\'' :: '\'' :: rest from rfl]
    rw [stepSqEnter, stepSqExit]
    simp
  · by_cases hsafe : s.all shSafeChar
    · rw [show shQuoteL s = s from by unfold shQuoteL; rw [if_neg hnil, if_pos hsafe]]
      obtain ⟨c, cs, rfl⟩ := List.exists_cons_of_ne_nil hnil
      simp only [List.all_cons, Bool.and_eq_true] at hsafe
      have hcs : cs.all plainChar = true := by
        simp only [List.all_eq_true] at hsafe ⊢
        intro x hx
        exact shSafeChar_plain (hsafe.2 x hx)
      rw [List.cons_append, stepPlain (shSafeChar_plain hsafe.1), plainRun hcs]
      simp
    · rw [show shQuoteL s = '\'' :: (pyReplaceQuote s ++ ['\'']) from by
        unfold shQuoteL; rw [if_neg hnil, if_neg hsafe]; simp]
      rw [List.cons_append, stepSqEnter, List.append_assoc, List.singleton_append, sqRun]

/-- The round-trip: a `shlex.quote`d string is read back by the shell as the
single original word. -/
theorem shellSplit_quote_roundtrip (s : List Char) : shellSplitL (shQuoteL s) = some [s] := by
  unfold shellSplitL
  have h := quoteRun s none []
  rw [List.append_nil] at h
  rw [h]
  rfl

/-- A plain prefix, a quoted user value and a plain suffix concatenate into a
single word whose text is exactly prefix + value + suffix. -/
theorem chunkRun (a s b : List Char) (hA : a.all plainChar = true)
    (hB : b.all plainChar = true) (cur : Option (List Char)) (rest : List Char) :
    shLexAux .unq cur (a ++ (shQuoteL s ++ (b ++ rest))) =
      shLexAux .unq (some (cur.getD [] ++ (a ++ (s ++ b)))) rest := by
  cases a with
  | nil =>
      rw [List.nil_append, quoteRun, plainRun hB]
      simp
  | cons c a' =>
      simp only [List.all_cons, Bool.and_eq_true] at hA
      rw [List.cons_append, stepPlain hA.1, plainRun hA.2, quoteRun, plainRun hB]
      simp

/-- Parsing the composed `mktemp` payload: the staging directory and the
target basename each survive as (part of) a single word. -/
theorem mktemp_parse (dir : Option String) (target : String) :
    shellSplit (mktempCommandString dir target) =
      some ["mktemp", "--tmpdir=" ++ dir.getD "", pyBasename target ++ "-XXXX.bdsync"] := by
  have hdata : (mktempCommandString dir target).data =
      ("mktemp" : String).data ++ (' ' :: (("--tmpdir=" : String).data ++
        (shQuoteL ((dir.getD "").data) ++ (' ' :: (shQuoteL (pyBasename target).data ++
          ("-XXXX.bdsync" : String).data))))) := by
    unfold mktempCommandString
    cases dir with
    | none =>
        simp [String.data_append, shQuoteOpt, shQuoteStr]
        rw [show shQuoteL [] = ['\'', '\''] from rfl]
        rfl
    | some d =>
        simp [String.data_append, shQuoteOpt, shQuoteStr]
  unfold shellSplit shellSplitL
  rw [hdata]
  rw [show ("mktemp" : String).data ++ (' ' :: (("--tmpdir=" : String).data ++
        (shQuoteL ((dir.getD "").data) ++ (' ' :: (shQuoteL (pyBasename target).data ++
          ("-XXXX.bdsync" : String).data)))))
      = 'm' :: (['k','t','e','m','p'] ++ (' ' :: (("--tmpdir=" : String).data ++
        (shQuoteL ((dir.getD "").data) ++ (' ' :: (shQuoteL (pyBasename target).data ++
          ("-XXXX.bdsync" : String).data)))))) from rfl]
  rw [stepPlain (by decide), plainRun (by decide), stepSpace]
  rw [show ("--tmpdir=" : String).data ++
        (shQuoteL ((dir.getD "").data) ++ (' ' :: (shQuoteL (pyBasename target).data ++
          ("-XXXX.bdsync" : String).data)))
      = ("--tmpdir=" : String).data ++
        (shQuoteL ((dir.getD "").data) ++ ([] ++ (' ' :: (shQuoteL (pyBasename target).data ++
          ("-XXXX.bdsync" : String).data)))) from by simp]
  rw [chunkRun _ _ _ (by decide) (by decide), stepSpace]
  rw [show shQuoteL (pyBasename target).data ++ ("-XXXX.bdsync" : String).data
      = [] ++ (shQuoteL (pyBasename target).data ++ (("-XXXX.bdsync" : String).data ++ [])) from by simp]
  rw [chunkRun _ _ _ (by decide) (by decide), endUnq]
  simp [String.ext_iff, String.data_append, pyBasename]

/-- Parsing the composed `rm` payload. -/
theorem rm_parse (f : String) :
    shellSplit (rmCommandString f) = some ["rm", f] := by
  unfold shellSplit shellSplitL
  rw [show (rmCommandString f).data = 'r' :: (['m'] ++ (' ' :: ([] ++ (shQuoteL f.data ++ ([] ++ []))))) from by
    simp [rmCommandString, String.data_append, shQuoteStr]]
  rw [stepPlain (by decide), plainRun (by decide), stepSpace, chunkRun _ _ _ (by decide) (by decide), endUnq]
  simp [String.ext_iff]

/-- Parsing the composed `cat` redirect payload. -/
theorem cat_parse (f : String) :
    shellSplit (catCommandString f) = some ["cat", ">", f] := by
  unfold shellSplit shellSplitL
  rw [show (catCommandString f).data =
      'c' :: (['a','t'] ++ (' ' :: ('>' :: (' ' :: ([] ++ (shQuoteL f.data ++ ([] ++ []))))))) from by
    simp [catCommandString, String.data_append, shQuoteStr]]
  rw [stepPlain (by decide), plainRun (by decide), stepSpace, stepPlain (by decide), stepSpace,
    chunkRun _ _ _ (by decide) (by decide), endUnq]
  simp [String.ext_iff]

/-- Parsing the composed `stat` payload. -/
theorem stat_parse (f : String) :
    shellSplit (statCommandString f) = some ["stat", "--format", "%s", f] := by
  unfold shellSplit shellSplitL
  rw [show (statCommandString f).data =
      's' :: (['t','a','t'] ++ (' ' :: ('-' :: (['-','f','o','r','m','a','t'] ++ (' ' ::
        ('%' :: (['s'] ++ (' ' :: ([] ++ (shQuoteL f.data ++ ([] ++ []))))))))))) from by
    simp [statCommandString, String.data_append, shQuoteStr]]
  rw [stepPlain (by decide), plainRun (by decide), stepSpace,
    stepPlain (by decide), plainRun (by decide), stepSpace,
    stepPlain (by decide), plainRun (by decide), stepSpace,
    chunkRun _ _ _ (by decide) (by decide), endUnq]
  simp [String.ext_iff]

/-- A space-joined sequence of `shlex.quote`d tokens parses back into exactly
those tokens. -/
theorem joinRun (toks : List String) (h : toks ≠ []) (rest : List Char) :
    shLexAux .unq none ((pyJoinSpace (toks.map shQuoteStr)).data ++ (' ' :: rest)) =
      (shLexAux .unq none rest).map (fun ws => toks.map String.data ++ ws) := by
  induction toks with
  | nil => exact absurd rfl h
  | cons t ts ih =>
      cases ts with
      | nil =>
          rw [show (pyJoinSpace ([t].map shQuoteStr)).data = shQuoteL t.data from by
            simp [pyJoinSpace, shQuoteStr]]
          rw [quoteRun, stepSpace]
          simp
      | cons t2 ts2 =>
          rw [show (pyJoinSpace ((t :: t2 :: ts2).map shQuoteStr)).data =
              shQuoteL t.data ++ (' ' :: (pyJoinSpace ((t2 :: ts2).map shQuoteStr)).data) from by
            simp [pyJoinSpace, String.data_append, shQuoteStr]]
          rw [List.append_assoc]
          rw [show (' ' :: (pyJoinSpace ((t2 :: ts2).map shQuoteStr)).data) ++ (' ' :: rest)
              = ' ' :: ((pyJoinSpace ((t2 :: ts2).map shQuoteStr)).data ++ (' ' :: rest)) from rfl]
          rw [quoteRun, stepSpace, ih (by simp)]
          simp [Option.map_map]
          rfl

/-- Parsing the composed remote apply payload: the remote tool path, every
`bdsync_args` token and the staging file path all survive as single words. -/
theorem apply_parse (rb ba f : String) :
    shellSplit (applyCommandString rb ba f) =
      some ([rb] ++ shlexSplit ba ++ ["--patch", "<", f]) := by
  unfold shellSplit shellSplitL
  rw [show (applyCommandString rb ba f).data =
      (pyJoinSpace (([rb] ++ shlexSplit ba ++ ["--patch"]).map shQuoteStr)).data ++
        (' ' :: ('<' :: (' ' :: (shQuoteL f.data ++ [])))) from by
    simp [applyCommandString, String.data_append, shQuoteStr]]
  rw [joinRun _ (by simp)]
  rw [stepPlain (by decide), stepSpace, quoteRun, endUnq]
  simp [Option.map_map, String.ext_iff]
  induction shlexSplit ba with
  | nil => rfl
  | cons x xs ihx => simp [ihx]

/-! ### Evaluation lemmas for the pipeline under symbolic environments -/

/-- `run_bdsync` never invokes `lvremove`: the pipeline contains no snapshot
teardown, whatever the environment does. -/
theorem run_bdsync_trace_no_lvremove (o : Oracle) (src tgt : String)
    (tpd conn : Option String) (lb rb ba : String) :
    ∀ e ∈ (run_bdsync o src tgt tpd conn lb rb ba).trace, ∀ a, e ≠ Event.lvremove a := by
  intro e he a
  simp only [run_bdsync, get_remote_tempfile, tr_bind_def] at he
  split at he <;>
    simp only [mem_trBind_trace, liftE_trace, liftE_result, liftX_trace, tr_pure_trace,
      tr_pure_result, pyRaise_trace, List.mem_singleton, List.not_mem_nil, Except.ok.injEq,
      exists_eq_left', false_or, or_false, exists_and_left] at he <;>
    aesop

theorem cleanup_trace (o : Oracle) (vg name : String) :
    (cleanup_lvm_snapshot o vg name).trace = [Event.lvremove (vg ++ "/" ++ name)] := by
  unfold cleanup_lvm_snapshot
  rw [tr_bind_def]
  unfold trBind
  cases h : (liftE (Event.lvremove (vg ++ "/" ++ name))
      (o.lvremove (vg ++ "/" ++ name)) : Tr Unit).result <;>
    simp [liftE, tr_pure_trace] at h ⊢

theorem prepare_eval (o : Oracle) (sp vg name size : String)
    (hok : o.lvcreate name size sp = .ok ()) :
    prepare_lvm_snapshot o sp vg name size =
      ⟨[Event.lvcreate name size sp], .ok ("/dev/" ++ vg ++ "/" ++ name)⟩ := by
  unfold prepare_lvm_snapshot
  rw [tr_bind_def]
  unfold trBind
  simp [liftE, hok, tr_pure_trace, tr_pure_result]

/-- After a successful snapshot creation, lines 196-207 are exactly: run the
pipeline on the snapshot's device path under `try`/`finally` snapshot
removal. -/
theorem snapshotAndRun_decomp (o : Oracle) (s : Settings) (vg : String) (l : LvmCfg)
    (h : s.lvm = some l)
    (hok : o.lvcreate l.snapshot_name l.snapshot_size s.source_path = .ok ()) :
    snapshotAndRun o s vg =
      trBind (prepare_lvm_snapshot o s.source_path vg l.snapshot_name l.snapshot_size)
        (fun _ => tryFinally
          (run_bdsync o ("/dev/" ++ vg ++ "/" ++ l.snapshot_name) s.target_path
            s.target_patch_dir s.connection_command s.local_bdsync_bin s.remote_bdsync_bin
            s.bdsync_args)
          (cleanup_lvm_snapshot o vg l.snapshot_name)) := by
  have hprep : prepare_lvm_snapshot o s.source_path vg l.snapshot_name l.snapshot_size =
      ⟨[Event.lvcreate l.snapshot_name l.snapshot_size s.source_path],
        .ok ("/dev/" ++ vg ++ "/" ++ l.snapshot_name)⟩ := prepare_eval o _ _ _ _ hok
  unfold snapshotAndRun
  simp only [h, tr_bind_def, hprep]
  unfold trBind
  simp

/-- Local-mode `run_bdsync` when every step succeeds: the five external
actions in order, ending with the staging-file deletion. -/
theorem run_bdsync_local_all_ok (o : Oracle) (src tgt : String) (tpd : Option String)
    (lb rb ba f : String) (n : Nat)
    (htmp : o.localTempfile tpd = .ok f)
    (hchain : ∀ a sk, o.chainRun a sk = .ok ())
    (hsize : o.localGetsize f = .ok n)
    (happly : ∀ a sf, o.applyCall a sf = .ok ())
    (hunlink : o.localUnlink f = .ok ()) :
    run_bdsync o src tgt tpd none lb rb ba =
      ⟨[Event.localTempfile tpd,
        Event.chainRun (lb :: (shlexSplit ba ++ [localServerCommandString rb, src, tgt]))
          (Sink.redirect f),
        Event.localGetsize f,
        Event.applyCall (lb :: (shlexSplit ba ++ ["--patch"])) (some f),
        Event.localUnlink f], .ok ()⟩ := by
  unfold run_bdsync
  simp [tr_bind_def, trBind, liftE, liftX, pyTruthy, tr_pure_trace, tr_pure_result, htmp, hchain, hsize, happly, hunlink]

/-- Local-mode `run_bdsync` when the create-patch chain fails: the run stops
with the chain's error and no deletion of the staging file is attempted. -/
theorem run_bdsync_local_chain_fails (o : Oracle) (src tgt : String) (tpd : Option String)
    (lb rb ba f : String) (e : PyError)
    (htmp : o.localTempfile tpd = .ok f)
    (hchain : ∀ a sk, o.chainRun a sk = .error e) :
    run_bdsync o src tgt tpd none lb rb ba =
      ⟨[Event.localTempfile tpd,
        Event.chainRun (lb :: (shlexSplit ba ++ [localServerCommandString rb, src, tgt]))
          (Sink.redirect f)], .error e⟩ := by
  unfold run_bdsync
  simp [tr_bind_def, trBind, liftE, liftX, pyTruthy, tr_pure_trace, tr_pure_result, htmp, hchain]

/-- Remote-mode `run_bdsync` when the apply command fails: the run stops with
the apply error and the remote staging file is not removed. -/
theorem run_bdsync_remote_apply_fails (o : Oracle) (src tgt : String) (tpd : Option String)
    (c lb rb ba mf so : String) (n : Int) (e : PyError)
    (hc : c.isEmpty = false)
    (hmk : ∀ a, o.remoteMktemp a = .ok mf)
    (hch : ∀ a sk, o.chainRun a sk = .ok ())
    (hst : ∀ a, o.remoteStat a = .ok so)
    (hint : pyInt so = .ok n)
    (hap : ∀ a sf, o.applyCall a sf = .error e) :
    run_bdsync o src tgt tpd (some c) lb rb ba =
      ⟨[Event.remoteMktemp (shlexSplit c ++ [mktempCommandString tpd tgt]),
        Event.chainRun (lb :: (shlexSplit ba ++ [remoteServerCommandString c rb, src, tgt]))
          (Sink.pipeTo (shlexSplit c ++ [catCommandString (pyRstripNl mf)])),
        Event.remoteStat (shlexSplit c ++ [statCommandString (pyRstripNl mf)]),
        Event.applyCall (shlexSplit c ++ [applyCommandString rb ba (pyRstripNl mf)]) none],
       .error e⟩ := by
  unfold run_bdsync get_remote_tempfile
  simp [tr_bind_def, trBind, liftE, liftX, pyTruthy, tr_pure_trace, tr_pure_result,
    hc, hmk, hch, hst, hint, hap]

/-- Local-mode `run_bdsync` when only the staging-file deletion fails: the
deletion error becomes the pipeline's error. -/
theorem run_bdsync_local_unlink_fails (o : Oracle) (src tgt : String) (tpd : Option String)
    (lb rb ba f : String) (n : Nat) (e : PyError)
    (htmp : o.localTempfile tpd = .ok f)
    (hchain : ∀ a sk, o.chainRun a sk = .ok ())
    (hsize : o.localGetsize f = .ok n)
    (happly : ∀ a sf, o.applyCall a sf = .ok ())
    (hunlink : o.localUnlink f = .error e) :
    run_bdsync o src tgt tpd none lb rb ba =
      ⟨[Event.localTempfile tpd,
        Event.chainRun (lb :: (shlexSplit ba ++ [localServerCommandString rb, src, tgt]))
          (Sink.redirect f),
        Event.localGetsize f,
        Event.applyCall (lb :: (shlexSplit ba ++ ["--patch"])) (some f),
        Event.localUnlink f], .error e⟩ := by
  unfold run_bdsync
  simp [tr_bind_def, trBind, liftE, liftX, pyTruthy, tr_pure_trace, tr_pure_result,
    htmp, hchain, hsize, happly, hunlink]

theorem cleanup_result_error (o : Oracle) (vg name : String) (e : PyError)
    (h : o.lvremove (vg ++ "/" ++ name) = .error e) :
    (cleanup_lvm_snapshot o vg name).result = .error e := by
  unfold cleanup_lvm_snapshot
  rw [tr_bind_def]
  unfold trBind
  simp [liftE, h]

/-- `load_settings` copies `target_patch_dir` (default `None`) and
`connection_command` (default `None`) through unchanged. -/
theorem load_settings_fields (cfg : RawConfig) (s : Settings)
    (h : load_settings cfg = .ok s) :
    s.target_patch_dir = cfg.target_patch_dir ∧
      s.connection_command = cfg.connection_command := by
  unfold load_settings load_settings_body at h
  simp only [bind, Except.bind, pure, Except.pure] at h
  repeat' split at h
  all_goals simp_all
  all_goals
    obtain ⟨rfl⟩ := h
    exact ⟨rfl, rfl⟩

/-- With a (truthy) connection command, `validate_settings` performs no check
on the target's parent directory or on the patch staging directory: it
succeeds whatever `target_patch_dir` holds, `None` included. -/
theorem validate_settings_remote (o : Oracle) (s : Settings) (c : String)
    (hbin : o.isfile s.local_bdsync_bin = true)
    (hsrc : o.pathExists s.source_path = true)
    (hlvm : s.lvm = none)
    (hconn : s.connection_command = some c)
    (hc : c.isEmpty = false) :
    validate_settings o s = ⟨[], .ok none⟩ := by
  unfold validate_settings
  simp [tr_bind_def, trBind, pyRaise, liftE, liftX, pyTruthy, tr_pure_trace, tr_pure_result,
    hbin, hsrc, hlvm, hconn, hc]

/-! ## Claim theorems -/

/-- C9: the size-formatting function `sizeof_fmt` uses binary (1024-based)
magnitude prefixes and maps 0 to "0.0B", 1536 to "1.5KiB" and 1099511627776
(= 1024^4) to "1.0TiB". -/
theorem c9_sizeof_fmt_binary_prefixes :
    sizeof_fmt 0 "B" = "0.0B" ∧ sizeof_fmt 1536 "B" = "1.5KiB" ∧
      sizeof_fmt 1099511627776 "B" = "1.0TiB" :=
  ⟨by decide, by decide, by decide⟩

/-- C5 (code evaluated at the failing input): for a task configuration
missing mandatory fields, `load_settings` fails with an uncaught
`KeyError` naming the first field read (`local_bdsync_bin`), not with a
`TaskSettingsError`: the `except configparser.NoOptionError` handler never
fires because the mapping-style access raises `KeyError`.  The failure does
occur before any subprocess is started (the task's trace is empty). -/
theorem c5_missing_field_raises_keyerror :
    load_settings cfgMissingBin = .error (.keyError "local_bdsync_bin") ∧
    isSettingsErrorResult (load_settings cfgMissingBin) = false ∧
    process_task oracleAllOk cfgMissingBin =
      ⟨[], .error (.keyError "local_bdsync_bin")⟩ :=
  ⟨by decide, by decide, by decide⟩

/-- C4 counterexample: a task with `disabled=true` whose configuration lacks
the mandatory `source_path` raises an error when processed — `load_settings`
reads all mandatory fields before consulting the disabled flag — refuting
"processing the task raises no error and performs no validation beyond
reading the disabled flag itself". -/
theorem c4_counterexample :
    process_task oracleAllOk cfgDisabledMissingSource =
      ⟨[], .error (.keyError "source_path")⟩ :=
  by decide

/-- C4 as amended: for a task with `disabled=true` *whose configuration loads
successfully* (all mandatory fields present), processing performs no external
call and raises no error; the load step itself, however, runs before the
disabled flag is consulted. -/
theorem c4_amended (o : Oracle) (config : RawConfig) (s : Settings)
    (hload : load_settings config = .ok s) (hdis : s.disabled = true) :
    process_task o config = ⟨[], .ok ()⟩ := by
  unfold process_task
  simp [tr_bind_def, trBind, liftX, tr_pure_trace, tr_pure_result, hload, hdis]

/-- Witness for C4: the complete disabled configuration `cfgDisabled`. -/
theorem c4_witness :
    load_settings cfgDisabled = .ok settingsDisabled ∧
    settingsDisabled.disabled = true ∧
    process_task oracleAllOk cfgDisabled = ⟨[], .ok ()⟩ :=
  ⟨by decide, rfl, c4_amended oracleAllOk cfgDisabled settingsDisabled (by decide) rfl⟩

/-- C1 (code evaluated at the failing input): task-scoped error handling does
not hold.  The loop catches only `TaskProcessingError`, which nothing in the
program raises; a `TaskSettingsError` from validation and a subprocess
failure from the pipeline both escape the per-task `except` clause and abort
the run, so the second task `beta` is never attempted (its `taskStart` never
appears in the trace). -/
theorem c1_task_errors_abort_run :
    mainRun oracleNoBinary [⟨"alpha", cfgLocal⟩, ⟨"beta", cfgLocal⟩] =
      ⟨[Event.taskStart "alpha"],
       .error (.taskSettingsError
         "The local bdsync binary was not found (/usr/bin/bdsync).")⟩ ∧
    mainRun oracleChainFails [⟨"alpha", cfgLocal⟩, ⟨"beta", cfgLocal⟩] =
      ⟨[Event.taskStart "alpha",
        Event.localTempfile (some "/tmp"),
        Event.chainRun ["/usr/bin/bdsync", "/usr/bin/bdsync --server", "/dev/sda1", "backup/root"]
          (Sink.redirect "/tmp/tmpq1w2")],
       .error (.processError "bdsync create failed")⟩ :=
  ⟨by decide, by decide⟩

/-- C2: whenever snapshot creation succeeded, the task body (lines 196-207)
invokes the snapshot-remove operation exactly once, immediately after the
patch pipeline returns, on every exit path: the task's trace is the creation
event, then exactly the pipeline's own trace (which never contains a
removal), then the removal event — whatever the pipeline did, success or
failure. -/
theorem c2_snapshot_removed_exactly_once (o : Oracle) (s : Settings) (vg : String)
    (l : LvmCfg) (h : s.lvm = some l)
    (hok : o.lvcreate l.snapshot_name l.snapshot_size s.source_path = .ok ()) :
    (snapshotAndRun o s vg).trace =
      Event.lvcreate l.snapshot_name l.snapshot_size s.source_path ::
        ((run_bdsync o ("/dev/" ++ vg ++ "/" ++ l.snapshot_name) s.target_path
          s.target_patch_dir s.connection_command s.local_bdsync_bin s.remote_bdsync_bin
          s.bdsync_args).trace ++ [Event.lvremove (vg ++ "/" ++ l.snapshot_name)]) ∧
    (snapshotAndRun o s vg).trace.count (Event.lvremove (vg ++ "/" ++ l.snapshot_name)) = 1 := by
  have hd := snapshotAndRun_decomp o s vg l h hok
  have hprep := prepare_eval o s.source_path vg l.snapshot_name l.snapshot_size hok
  have htr : (snapshotAndRun o s vg).trace =
      Event.lvcreate l.snapshot_name l.snapshot_size s.source_path ::
        ((run_bdsync o ("/dev/" ++ vg ++ "/" ++ l.snapshot_name) s.target_path
          s.target_patch_dir s.connection_command s.local_bdsync_bin s.remote_bdsync_bin
          s.bdsync_args).trace ++ [Event.lvremove (vg ++ "/" ++ l.snapshot_name)]) := by
    rw [hd, hprep]
    unfold trBind
    simp [tryFinally_trace, cleanup_trace]
  refine ⟨htr, ?_⟩
  rw [htr]
  have hzero : (run_bdsync o ("/dev/" ++ vg ++ "/" ++ l.snapshot_name) s.target_path
      s.target_patch_dir s.connection_command s.local_bdsync_bin s.remote_bdsync_bin
      s.bdsync_args).trace.count (Event.lvremove (vg ++ "/" ++ l.snapshot_name)) = 0 :=
    List.count_eq_zero.mpr fun hmem =>
      run_bdsync_trace_no_lvremove o _ _ _ _ _ _ _ _ hmem _ rfl
  simp [List.count_cons, List.count_append, hzero]

/-- Witness for C2: a remote-mode task with snapshotting in the all-success
environment. -/
theorem c2_witness :
    settingsRemoteLvm.lvm = some ⟨"5G", "bdsync-snapshot"⟩ ∧
    oracleAllOk.lvcreate "bdsync-snapshot" "5G" "/dev/vg0/root" = .ok () ∧
    (snapshotAndRun oracleAllOk settingsRemoteLvm "vg0").trace.count
      (Event.lvremove ("vg0" ++ "/" ++ "bdsync-snapshot")) = 1 :=
  ⟨rfl, rfl,
    (c2_snapshot_removed_exactly_once oracleAllOk settingsRemoteLvm "vg0"
      ⟨"5G", "bdsync-snapshot"⟩ rfl rfl).2⟩

/-- C8: snapshot creation returns the deterministic device path
`/dev/<volumeGroup>/<name>` built from the discovered volume-group name and
the configured snapshot name, and the patch pipeline is then run with that
path as its source argument (under the removal `finally`), not with the raw
configured source path. -/
theorem c8_snapshot_path_used (o : Oracle) (s : Settings) (vg : String) (l : LvmCfg)
    (h : s.lvm = some l)
    (hok : o.lvcreate l.snapshot_name l.snapshot_size s.source_path = .ok ()) :
    prepare_lvm_snapshot o s.source_path vg l.snapshot_name l.snapshot_size =
      ⟨[Event.lvcreate l.snapshot_name l.snapshot_size s.source_path],
        .ok ("/dev/" ++ vg ++ "/" ++ l.snapshot_name)⟩ ∧
    snapshotAndRun o s vg =
      trBind (prepare_lvm_snapshot o s.source_path vg l.snapshot_name l.snapshot_size)
        (fun _ => tryFinally
          (run_bdsync o ("/dev/" ++ vg ++ "/" ++ l.snapshot_name) s.target_path
            s.target_patch_dir s.connection_command s.local_bdsync_bin s.remote_bdsync_bin
            s.bdsync_args)
          (cleanup_lvm_snapshot o vg l.snapshot_name)) :=
  ⟨prepare_eval o s.source_path vg l.snapshot_name l.snapshot_size hok,
    snapshotAndRun_decomp o s vg l h hok⟩

/-- Witness for C8: concrete volume group `vg0` and the default snapshot
name give the device path `/dev/vg0/bdsync-snapshot`. -/
theorem c8_witness :
    settingsRemoteLvm.lvm = some ⟨"5G", "bdsync-snapshot"⟩ ∧
    prepare_lvm_snapshot oracleAllOk "/dev/vg0/root" "vg0" "bdsync-snapshot" "5G" =
      ⟨[Event.lvcreate "bdsync-snapshot" "5G" "/dev/vg0/root"],
        .ok ("/dev/" ++ "vg0" ++ "/" ++ "bdsync-snapshot")⟩ :=
  ⟨rfl,
    (c8_snapshot_path_used oracleAllOk settingsRemoteLvm "vg0"
      ⟨"5G", "bdsync-snapshot"⟩ rfl rfl).1⟩

/-- C6 counterexample: with the pipeline failing ("bdsync create failed")
and the snapshot removal also failing ("lvremove failed"), the task's
reported error is the teardown error, not the original pipeline error: the
`finally` clause's exception replaces the pipeline's, refuting "the error
reported for the task is the original pipeline error". -/
theorem c6_counterexample :
    (run_bdsync oracleTeardownAlsoFails "/dev/vg0/bdsync-snapshot" "backup/root"
        (some "/tmp") none "/usr/bin/bdsync" "/usr/bin/bdsync" "").result =
      .error (.processError "bdsync create failed") ∧
    (snapshotAndRun oracleTeardownAlsoFails settingsLocalLvm "vg0").result =
      .error (.processError "lvremove failed") :=
  ⟨by decide, by decide⟩

/-- C6 as amended: if the patch pipeline raises and the subsequent
snapshot-remove step also fails, the teardown error *replaces* the pipeline
error as the task's result (Python `try`/`finally` semantics); the teardown
failure is neither caught nor separately reported, and the original pipeline
error is lost. -/
theorem c6_amended (o : Oracle) (s : Settings) (vg : String) (l : LvmCfg)
    (f : String) (e1 e2 : PyError)
    (h : s.lvm = some l) (hconn : s.connection_command = none)
    (hcreate : o.lvcreate l.snapshot_name l.snapshot_size s.source_path = .ok ())
    (htmp : ∀ d, o.localTempfile d = .ok f)
    (hchain : ∀ a sk, o.chainRun a sk = .error e1)
    (hrm : ∀ x, o.lvremove x = .error e2) :
    (run_bdsync o ("/dev/" ++ vg ++ "/" ++ l.snapshot_name) s.target_path
      s.target_patch_dir s.connection_command s.local_bdsync_bin s.remote_bdsync_bin
      s.bdsync_args).result = .error e1 ∧
    (snapshotAndRun o s vg).result = .error e2 := by
  have hrun := run_bdsync_local_chain_fails o ("/dev/" ++ vg ++ "/" ++ l.snapshot_name)
    s.target_path s.target_patch_dir s.local_bdsync_bin s.remote_bdsync_bin s.bdsync_args
    f e1 (htmp _) hchain
  constructor
  · rw [hconn, hrun]
  · rw [snapshotAndRun_decomp o s vg l h hcreate]
    unfold trBind
    rw [prepare_eval o s.source_path vg l.snapshot_name l.snapshot_size hcreate]
    unfold tryFinally
    rw [cleanup_result_error o vg l.snapshot_name e2 (hrm _)]

/-- Witness for C6: the environment in which both the chain and `lvremove`
fail. -/
theorem c6_witness :
    (run_bdsync oracleTeardownAlsoFails
        ("/dev/" ++ "vg0" ++ "/" ++ "bdsync-snapshot") "backup/root" (some "/tmp") none
        "/usr/bin/bdsync" "/usr/bin/bdsync" "").result =
      .error (.processError "bdsync create failed") ∧
    (snapshotAndRun oracleTeardownAlsoFails settingsLocalLvm "vg0").result =
      .error (.processError "lvremove failed") := by
  have := c6_amended oracleTeardownAlsoFails settingsLocalLvm "vg0"
    ⟨"5G", "bdsync-snapshot"⟩ "/tmp/tmpq1w2"
    (.processError "bdsync create failed") (.processError "lvremove failed")
    rfl rfl rfl (fun _ => rfl) (fun _ _ => rfl) (fun _ => rfl)
  exact this

/-- C3 counterexample: in a run whose create-patch chain fails, the pipeline
stops at the chain step — its trace contains no staging-file deletion event —
refuting "the deletion step is attempted even when the create or apply
subprocess fails". -/
theorem c3_counterexample :
    run_bdsync oracleChainFails "/dev/sda1" "backup/root" (some "/tmp") none
        "/usr/bin/bdsync" "/usr/bin/bdsync" "" =
      ⟨[Event.localTempfile (some "/tmp"),
        Event.chainRun ["/usr/bin/bdsync", "/usr/bin/bdsync --server", "/dev/sda1", "backup/root"]
          (Sink.redirect "/tmp/tmpq1w2")],
       .error (.processError "bdsync create failed")⟩ :=
  by decide

/-- C3 as amended: the staging temp file is deleted only at the end of a
fully successful pipeline invocation — (1) on the all-success local path the
deletion is the final step; (2) if the local create chain fails, the pipeline
stops before the deletion, which is not attempted; (3) likewise in remote
mode when the apply step fails, the remote removal is not attempted; (4) a
failure of the deletion itself propagates as the pipeline's error instead of
being only reported. -/
theorem c3_amended :
    (∀ (o : Oracle) (src tgt : String) (tpd : Option String) (lb rb ba f : String) (n : Nat),
      o.localTempfile tpd = .ok f → (∀ a sk, o.chainRun a sk = .ok ()) →
      o.localGetsize f = .ok n → (∀ a sf, o.applyCall a sf = .ok ()) →
      o.localUnlink f = .ok () →
      run_bdsync o src tgt tpd none lb rb ba =
        ⟨[Event.localTempfile tpd,
          Event.chainRun (lb :: (shlexSplit ba ++ [localServerCommandString rb, src, tgt]))
            (Sink.redirect f),
          Event.localGetsize f,
          Event.applyCall (lb :: (shlexSplit ba ++ ["--patch"])) (some f),
          Event.localUnlink f], .ok ()⟩) ∧
    (∀ (o : Oracle) (src tgt : String) (tpd : Option String) (lb rb ba f : String) (e : PyError),
      o.localTempfile tpd = .ok f → (∀ a sk, o.chainRun a sk = .error e) →
      run_bdsync o src tgt tpd none lb rb ba =
        ⟨[Event.localTempfile tpd,
          Event.chainRun (lb :: (shlexSplit ba ++ [localServerCommandString rb, src, tgt]))
            (Sink.redirect f)], .error e⟩) ∧
    (∀ (o : Oracle) (src tgt : String) (tpd : Option String) (c lb rb ba mf so : String)
        (n : Int) (e : PyError),
      c.isEmpty = false → (∀ a, o.remoteMktemp a = .ok mf) →
      (∀ a sk, o.chainRun a sk = .ok ()) → (∀ a, o.remoteStat a = .ok so) →
      pyInt so = .ok n → (∀ a sf, o.applyCall a sf = .error e) →
      run_bdsync o src tgt tpd (some c) lb rb ba =
        ⟨[Event.remoteMktemp (shlexSplit c ++ [mktempCommandString tpd tgt]),
          Event.chainRun (lb :: (shlexSplit ba ++ [remoteServerCommandString c rb, src, tgt]))
            (Sink.pipeTo (shlexSplit c ++ [catCommandString (pyRstripNl mf)])),
          Event.remoteStat (shlexSplit c ++ [statCommandString (pyRstripNl mf)]),
          Event.applyCall (shlexSplit c ++ [applyCommandString rb ba (pyRstripNl mf)]) none],
         .error e⟩) ∧
    (∀ (o : Oracle) (src tgt : String) (tpd : Option String) (lb rb ba f : String)
        (n : Nat) (e : PyError),
      o.localTempfile tpd = .ok f → (∀ a sk, o.chainRun a sk = .ok ()) →
      o.localGetsize f = .ok n → (∀ a sf, o.applyCall a sf = .ok ()) →
      o.localUnlink f = .error e →
      (run_bdsync o src tgt tpd none lb rb ba).result = .error e) :=
  ⟨fun o src tgt tpd lb rb ba f n h1 h2 h3 h4 h5 =>
      run_bdsync_local_all_ok o src tgt tpd lb rb ba f n h1 h2 h3 h4 h5,
   fun o src tgt tpd lb rb ba f e h1 h2 =>
      run_bdsync_local_chain_fails o src tgt tpd lb rb ba f e h1 h2,
   fun o src tgt tpd c lb rb ba mf so n e h1 h2 h3 h4 h5 h6 =>
      run_bdsync_remote_apply_fails o src tgt tpd c lb rb ba mf so n e h1 h2 h3 h4 h5 h6,
   fun o src tgt tpd lb rb ba f n e h1 h2 h3 h4 h5 => by
      rw [run_bdsync_local_unlink_fails o src tgt tpd lb rb ba f n e h1 h2 h3 h4 h5]⟩

/-- Witness for C3: concrete environments exercising all four parts of the
amended claim. -/
theorem c3_witness :
    run_bdsync oracleAllOk "/dev/sda1" "backup/root" (some "/tmp") none
        "/usr/bin/bdsync" "/usr/bin/bdsync" "" =
      ⟨[Event.localTempfile (some "/tmp"),
        Event.chainRun ("/usr/bin/bdsync" ::
            (shlexSplit "" ++ [localServerCommandString "/usr/bin/bdsync", "/dev/sda1", "backup/root"]))
          (Sink.redirect "/tmp/tmpq1w2"),
        Event.localGetsize "/tmp/tmpq1w2",
        Event.applyCall ("/usr/bin/bdsync" :: (shlexSplit "" ++ ["--patch"])) (some "/tmp/tmpq1w2"),
        Event.localUnlink "/tmp/tmpq1w2"], .ok ()⟩ ∧
    run_bdsync oracleChainFails "/dev/sda2" "backup/home" (some "/tmp") none
        "/usr/bin/bdsync" "/usr/bin/bdsync" "" =
      ⟨[Event.localTempfile (some "/tmp"),
        Event.chainRun ("/usr/bin/bdsync" ::
            (shlexSplit "" ++ [localServerCommandString "/usr/bin/bdsync", "/dev/sda2", "backup/home"]))
          (Sink.redirect "/tmp/tmpq1w2")],
       .error (.processError "bdsync create failed")⟩ ∧
    run_bdsync oracleApplyFails "/dev/sda1" "backup/root" (some "/tmp")
        (some "ssh foo@target") "/usr/bin/bdsync" "/usr/local/bin/bdsync" "" =
      ⟨[Event.remoteMktemp (shlexSplit "ssh foo@target" ++
          [mktempCommandString (some "/tmp") "backup/root"]),
        Event.chainRun ("/usr/bin/bdsync" :: (shlexSplit "" ++
            [remoteServerCommandString "ssh foo@target" "/usr/local/bin/bdsync",
             "/dev/sda1", "backup/root"]))
          (Sink.pipeTo (shlexSplit "ssh foo@target" ++
            [catCommandString (pyRstripNl "/tmp/root-ab12.bdsync\n")])),
        Event.remoteStat (shlexSplit "ssh foo@target" ++
          [statCommandString (pyRstripNl "/tmp/root-ab12.bdsync\n")]),
        Event.applyCall (shlexSplit "ssh foo@target" ++
          [applyCommandString "/usr/local/bin/bdsync" "" (pyRstripNl "/tmp/root-ab12.bdsync\n")])
          none],
       .error (.processError "bdsync patch failed")⟩ ∧
    (run_bdsync oracleUnlinkFails "/dev/sda1" "backup/root" (some "/tmp") none
        "/usr/bin/bdsync" "/usr/bin/bdsync" "").result =
      .error (.processError "unlink failed") :=
  ⟨c3_amended.1 oracleAllOk "/dev/sda1" "backup/root" (some "/tmp")
      "/usr/bin/bdsync" "/usr/bin/bdsync" "" "/tmp/tmpq1w2" 1536
      rfl (fun _ _ => rfl) rfl (fun _ _ => rfl) rfl,
   c3_amended.2.1 oracleChainFails "/dev/sda2" "backup/home" (some "/tmp")
      "/usr/bin/bdsync" "/usr/bin/bdsync" "" "/tmp/tmpq1w2" (.processError "bdsync create failed")
      rfl (fun _ _ => rfl),
   c3_amended.2.2.1 oracleApplyFails "/dev/sda1" "backup/root" (some "/tmp")
      "ssh foo@target" "/usr/bin/bdsync" "/usr/local/bin/bdsync" "" "/tmp/root-ab12.bdsync\n"
      "1536\n" 1536 (.processError "bdsync patch failed")
      rfl (fun _ => rfl) (fun _ _ => rfl) (fun _ => rfl) (by decide) (fun _ _ => rfl),
   c3_amended.2.2.2 oracleUnlinkFails "/dev/sda1" "backup/root" (some "/tmp")
      "/usr/bin/bdsync" "/usr/bin/bdsync" "" "/tmp/tmpq1w2" 1536
      (.processError "unlink failed")
      rfl (fun _ _ => rfl) rfl (fun _ _ => rfl) rfl⟩

/-- C7: in remote mode, every user-configuration-derived token embedded in a
composed remote command string passes through `shlex.quote`, and the quoting
is semantically correct: a quoted value — the staging directory and target
basename in the `mktemp` payload, the remote temp-file path in the `cat`,
`stat` and `rm` payloads, and the remote tool path, every `bdsync_args`
token and the temp-file path in the apply payload — is read back by POSIX
field splitting and quote removal as a single word equal to the original
value (so in particular a target path containing a space survives as one
word). -/
theorem c7_remote_tokens_escaped :
    (∀ s : String, shellSplit (shQuoteStr s) = some [s]) ∧
    (∀ (dir : Option String) (target : String),
      shellSplit (mktempCommandString dir target) =
        some ["mktemp", "--tmpdir=" ++ dir.getD "", pyBasename target ++ "-XXXX.bdsync"]) ∧
    (∀ f : String, shellSplit (catCommandString f) = some ["cat", ">", f]) ∧
    (∀ f : String, shellSplit (statCommandString f) = some ["stat", "--format", "%s", f]) ∧
    (∀ f : String, shellSplit (rmCommandString f) = some ["rm", f]) ∧
    (∀ rb ba f : String, shellSplit (applyCommandString rb ba f) =
        some ([rb] ++ shlexSplit ba ++ ["--patch", "<", f])) := by
  refine ⟨?_, mktemp_parse, cat_parse, stat_parse, rm_parse, apply_parse⟩
  intro s
  unfold shellSplit
  rw [show (shQuoteStr s).data = shQuoteL s.data from rfl, shellSplit_quote_roundtrip]
  rfl

/-- C10: with a connection command present (remote mode), `validate_settings`
performs no existence check on the target path's parent directory or on the
patch staging directory — it succeeds whatever `target_patch_dir` holds;
`load_settings` passes an absent `target_patch_dir` through as `None`; and
that `None` only surfaces once the pipeline composes the remote temp-file
creation command, where `shlex.quote(None)` renders as `''` — not as a
`SettingsError`. -/
theorem c10_remote_skips_local_checks (o : Oracle) (s : Settings) (c : String)
    (hbin : o.isfile s.local_bdsync_bin = true)
    (hsrc : o.pathExists s.source_path = true)
    (hlvm : s.lvm = none)
    (hconn : s.connection_command = some c)
    (hc : c.isEmpty = false) :
    validate_settings o s = ⟨[], .ok none⟩ ∧
    (∀ (cfg : RawConfig) (s' : Settings), load_settings cfg = .ok s' →
      s'.target_patch_dir = cfg.target_patch_dir) ∧
    (∀ t : String, mktempCommandString none t =
      "mktemp --tmpdir='' " ++ shQuoteStr (pyBasename t) ++ "-XXXX.bdsync") := by
  refine ⟨validate_settings_remote o s c hbin hsrc hlvm hconn hc,
    fun cfg s' hload => (load_settings_fields cfg s' hload).1, fun t => ?_⟩
  unfold mktempCommandString shQuoteOpt
  apply String.ext
  simp only [String.data_append, List.append_assoc]
  rfl

/-- Witness for C10: the remote-mode settings with `target_patch_dir = None`
validate successfully in the all-success environment. -/
theorem c10_witness :
    validate_settings oracleAllOk settingsRemoteNoPatchDir = ⟨[], .ok none⟩ ∧
    (∀ (cfg : RawConfig) (s' : Settings), load_settings cfg = .ok s' →
      s'.target_patch_dir = cfg.target_patch_dir) ∧
    (∀ t : String, mktempCommandString none t =
      "mktemp --tmpdir='' " ++ shQuoteStr (pyBasename t) ++ "-XXXX.bdsync") :=
  c10_remote_skips_local_checks oracleAllOk settingsRemoteNoPatchDir "ssh foo@target"
    rfl rfl rfl rfl rfl

end BdsyncManager
